import Mathlib

/-!
A shallow embedding of the update-ingestion and dispatch subsystem of
`node-telegram-bot-api` (files `src/telegram.ts`, `src/errors.ts`), together
with theorems settling the specification claims about it.

The dispatcher (`TelegramBot.processUpdate`) and the listener-table
operations (`onText`, `onReplyToMessage`, `removeReplyListener`) and the
transport-lifecycle guards (`startPolling`, `openWebHook`, `isPolling`,
`hasOpenWebHook`) are translated from `src/telegram.ts`.  Side effects are
made explicit: a run of the dispatcher produces a trace of events (event
emissions and callback invocations) plus an optional uncaught JavaScript
exception; subscriber callbacks are modelled as pure functions that either
return or throw.
-/

namespace TelegramBotApi

/-- A JavaScript value as stored in the loosely-typed optional message
fields (`audio`, `photo`, `group_chat_created`, ...).  Only its truthiness
is ever inspected by the dispatcher. -/
inductive JsVal where
  | absent
  | vstr (s : String)
  | vnum (n : Int)
  | vbool (b : Bool)
  | vobj
deriving DecidableEq, Repr

/-- JavaScript truthiness: `undefined`, `""`, `0` and `false` are falsy;
every (non-null) object is truthy. -/
def JsVal.truthy : JsVal → Bool
  | .absent => false
  | .vstr s => s != ""
  | .vnum n => n != 0
  | .vbool b => b
  | .vobj => true

/-- A `number | string` identifier, as accepted by `onReplyToMessage`
(`chatId: number | string, messageId: number | string`). -/
inductive JsId where
  | num (n : Int)
  | str (s : String)
deriving DecidableEq, Repr

/-- JavaScript strict equality `===` between a `number | string` value and a
number: a string is never strictly equal to a number, whatever its digits. -/
def JsId.eqNum : JsId → Int → Bool
  | .num m, n => m == n
  | .str _, _ => false

/-- Chat reference carried by a message (`message.chat`); its `id` field is
typed `number` in the source interfaces. -/
structure Chat where
  id : Int
deriving DecidableEq, Repr

/-- The part of `message.reply_to_message` the dispatcher reads: the
original message id (`message.reply_to_message.message_id`, a `number`). -/
structure ReplyRef where
  message_id : Int
deriving DecidableEq, Repr

/-- A message, restricted to the fields `processUpdate` reads: `chat`,
`text`, `caption`, `reply_to_message`, and the remaining subtype keys of
`_messageTypes` (kept as raw `JsVal`s since only truthiness is tested). -/
structure Message where
  message_id : Int := 0
  chat : Chat := ⟨0⟩
  text : Option String := none
  caption : Option String := none
  reply_to_message : Option ReplyRef := none
  audio : JsVal := .absent
  document : JsVal := .absent
  photo : JsVal := .absent
  sticker : JsVal := .absent
  video : JsVal := .absent
  voice : JsVal := .absent
  contact : JsVal := .absent
  location : JsVal := .absent
  new_chat_participant : JsVal := .absent
  left_chat_participant : JsVal := .absent
  new_chat_title : JsVal := .absent
  new_chat_photo : JsVal := .absent
  delete_chat_photo : JsVal := .absent
  group_chat_created : JsVal := .absent
deriving DecidableEq, Repr

/-- The `_messageTypes` array of `src/telegram.ts` (lines 24-28), iterated
by the `message` branch of `processUpdate`. -/
def messageTypes : List String :=
  ["text", "audio", "document", "photo", "sticker", "video", "voice",
   "contact", "location", "new_chat_participant", "left_chat_participant",
   "new_chat_title", "new_chat_photo", "delete_chat_photo",
   "group_chat_created"]

/-- The dynamic property access `message[messageType]` for the names in
`_messageTypes`.  The `text` field is a string, so its `JsVal` view is
`.vstr`; an absent field is `undefined`. -/
def Message.field (m : Message) : String → JsVal
  | "text" => match m.text with | some s => .vstr s | none => .absent
  | "audio" => m.audio
  | "document" => m.document
  | "photo" => m.photo
  | "sticker" => m.sticker
  | "video" => m.video
  | "voice" => m.voice
  | "contact" => m.contact
  | "location" => m.location
  | "new_chat_participant" => m.new_chat_participant
  | "left_chat_participant" => m.left_chat_participant
  | "new_chat_title" => m.new_chat_title
  | "new_chat_photo" => m.new_chat_photo
  | "delete_chat_photo" => m.delete_chat_photo
  | "group_chat_created" => m.group_chat_created
  | _ => .absent

/-- Truthiness of an optional string field (`if (message.text)`,
`if (editedMessage.caption)`): absent or empty means falsy. -/
def truthyStr : Option String → Bool
  | some s => s != ""
  | none => false

/-- An inline query payload; the dispatcher only forwards it. -/
structure InlineQuery where
  id : String
deriving DecidableEq, Repr

/-- A chosen-inline-result payload; the dispatcher only forwards it. -/
structure ChosenInlineResult where
  result_id : String
deriving DecidableEq, Repr

/-- A callback-query payload; the dispatcher only forwards it. -/
structure CallbackQuery where
  id : String
deriving DecidableEq, Repr

/-- An incoming update as read by `processUpdate`.  Every field is optional:
the dispatcher itself checks each variant for truthiness, and it never reads
`update_id` (so that field may be absent). -/
structure Update where
  update_id : Option Int := none
  message : Option Message := none
  edited_message : Option Message := none
  channel_post : Option Message := none
  edited_channel_post : Option Message := none
  inline_query : Option InlineQuery := none
  chosen_inline_result : Option ChosenInlineResult := none
  callback_query : Option CallbackQuery := none
deriving DecidableEq, Repr

/-- The outcome of invoking a subscriber callback: normal return, or a
thrown JavaScript exception (carried as a message string). -/
inductive CbRes where
  | ret
  | thrown (e : String)
deriving DecidableEq, Repr

/-- A registered text matcher `{regexp, callback}` (pushed by `onText`).
`regexp` abstracts `RegExp.prototype.exec`: it yields the match-result array
(a list of strings) or `none`. -/
structure TextMatcher where
  regexp : String → Option (List String)
  callback : Message → List String → CbRes

/-- A registered reply listener `{id, chatId, messageId, callback}`
(pushed by `onReplyToMessage`). -/
structure ReplyListener where
  id : Int
  chatId : JsId
  messageId : JsId
  callback : Message → CbRes

/-- The dispatcher-relevant state of a `TelegramBot` instance: the
`onlyFirstMatch` option and the two listener tables with the reply-listener
id counter, initialised as in the constructor (lines 747-749). -/
structure Bot where
  onlyFirstMatch : Bool := false
  textRegexpCallbacks : List TextMatcher := []
  replyListenerId : Int := 0
  replyListeners : List ReplyListener := []

/-- Event-channel payloads forwarded by `this.emit(...)`. -/
inductive Payload where
  | msg (m : Message)
  | iq (q : InlineQuery)
  | cir (r : ChosenInlineResult)
  | cbq (q : CallbackQuery)
deriving DecidableEq, Repr

/-- One observable step of a dispatcher run: an event emission
(`this.emit(name, payload)`), a text-matcher callback invocation
(`reg.callback(message, result)`, identified by the matcher's registration
index), or a reply-listener callback invocation (`reply.callback(message)`,
identified by the listener id). -/
inductive Ev where
  | emit (name : String) (p : Payload)
  | textCb (idx : Nat) (m : Message) (res : List String)
  | replyCb (id : Int) (m : Message)
deriving DecidableEq, Repr

/-- The subtype emissions of the `message` branch:
`TelegramBot.messageTypes.forEach(processMessageType)` emits the
subtype-named event for every truthy `message[messageType]`. -/
def subtypeEmits (m : Message) : List Ev :=
  (messageTypes.filter fun ty => (m.field ty).truthy).map
    fun ty => Ev.emit ty (.msg m)

/-- The `this._textRegexpCallbacks.some(...)` scan (lines 1064-1074):
matchers are tested in registration order (`i` is the index of the head of
the remaining list); a match invokes the callback, a thrown exception
escapes the scan, and a truthy `onlyFirstMatch` terminates it after the
first successful match. -/
def scanText (onlyFirst : Bool) (m : Message) (text : String) :
    List TextMatcher → Nat → List Ev × Option String
  | [], _ => ([], none)
  | reg :: rest, i =>
    match reg.regexp text with
    | none => scanText onlyFirst m text rest (i + 1)
    | some res =>
      match reg.callback m res with
      | .thrown e => ([Ev.textCb i m res], some e)
      | .ret =>
        if onlyFirst then ([Ev.textCb i m res], none)
        else
          let r := scanText onlyFirst m text rest (i + 1)
          (Ev.textCb i m res :: r.1, r.2)

/-- The `this._replyListeners.forEach(...)` scan (lines 1078-1087): every
listener whose `chatId` and `messageId` are strictly equal (`===`) to the
message's chat id and the replied-to message id has its callback invoked;
a thrown exception escapes the scan.  No listener is removed. -/
def scanReplies (m : Message) (origId : Int) :
    List ReplyListener → List Ev × Option String
  | [] => ([], none)
  | l :: rest =>
    if l.chatId.eqNum m.chat.id && l.messageId.eqNum origId then
      match l.callback m with
      | .thrown e => ([Ev.replyCb l.id m], some e)
      | .ret =>
        let r := scanReplies m origId rest
        (Ev.replyCb l.id m :: r.1, r.2)
    else scanReplies m origId rest

/-- The guarded text scan of the `message` branch: the
`this._textRegexpCallbacks.some(...)` iteration runs only when
`message.text` is truthy (line 1062); otherwise nothing happens. -/
def textScanResult (b : Bot) (m : Message) : List Ev × Option String :=
  if truthyStr m.text then
    scanText b.onlyFirstMatch m (m.text.getD "") b.textRegexpCallbacks 0
  else ([], none)

/-- The `message` branch of `processUpdate` (lines 1052-1088): emit
`"message"`, emit the truthy subtype events, then (if `message.text` is
truthy) run the text-matcher scan, then (if `message.reply_to_message` is
present and no exception escaped the text scan) run the reply-listener
scan. -/
def processMessage (b : Bot) (m : Message) : List Ev × Option String :=
  let base := Ev.emit "message" (.msg m) :: subtypeEmits m
  match (textScanResult b m).2 with
  | some e => (base ++ (textScanResult b m).1, some e)
  | none =>
    match m.reply_to_message with
    | some r =>
      (base ++ (textScanResult b m).1 ++
        (scanReplies m r.message_id b.replyListeners).1,
       (scanReplies m r.message_id b.replyListeners).2)
    | none => (base ++ (textScanResult b m).1, none)

/-- `TelegramBot.processUpdate` (lines 1042-1120): the variant fields are
tested for truthiness in the fixed source order, the first populated one
selects the branch; `edited_message` and `edited_channel_post` additionally
emit `..._text` / `..._caption` events when those fields are truthy, while
`channel_post`, `inline_query`, `chosen_inline_result` and `callback_query`
emit exactly their category event.  `update_id` is never read.  The result
is the trace of emissions and callback invocations together with the
uncaught exception, if a subscriber callback threw one. -/
def processUpdate (b : Bot) (u : Update) : List Ev × Option String :=
  match u.message with
  | some m => processMessage b m
  | none =>
  match u.edited_message with
  | some m =>
    (Ev.emit "edited_message" (.msg m) ::
      ((if truthyStr m.text then [Ev.emit "edited_message_text" (.msg m)]
        else []) ++
       (if truthyStr m.caption then
          [Ev.emit "edited_message_caption" (.msg m)]
        else [])), none)
  | none =>
  match u.channel_post with
  | some m => ([Ev.emit "channel_post" (.msg m)], none)
  | none =>
  match u.edited_channel_post with
  | some m =>
    (Ev.emit "edited_channel_post" (.msg m) ::
      ((if truthyStr m.text then
          [Ev.emit "edited_channel_post_text" (.msg m)]
        else []) ++
       (if truthyStr m.caption then
          [Ev.emit "edited_channel_post_caption" (.msg m)]
        else [])), none)
  | none =>
  match u.inline_query with
  | some q => ([Ev.emit "inline_query" (.iq q)], none)
  | none =>
  match u.chosen_inline_result with
  | some r => ([Ev.emit "chosen_inline_result" (.cir r)], none)
  | none =>
  match u.callback_query with
  | some q => ([Ev.emit "callback_query" (.cbq q)], none)
  | none => ([], none)

/-- `processUpdate` at the state level: the method body contains no
assignment to `this._textRegexpCallbacks`, `this._replyListeners` or
`this._replyListenerId`, so the post-state is the pre-state unchanged,
paired with the produced trace. -/
def processUpdateSt (b : Bot) (u : Update) :
    Bot × (List Ev × Option String) :=
  (b, processUpdate b u)

/-- `TelegramBot.onText` (lines 1584-1586): push `{regexp, callback}` onto
the matcher table. -/
def onText (b : Bot) (regexp : String → Option (List String))
    (callback : Message → List String → CbRes) : Bot :=
  { b with textRegexpCallbacks := b.textRegexpCallbacks ++ [⟨regexp, callback⟩] }

/-- `TelegramBot.onReplyToMessage` (lines 1596-1605): `++this._replyListenerId`
allocates the next id, the listener is pushed, the id is returned. -/
def onReplyToMessage (b : Bot) (chatId messageId : JsId)
    (callback : Message → CbRes) : Int × Bot :=
  let id := b.replyListenerId + 1
  (id,
   { b with
     replyListenerId := id,
     replyListeners := b.replyListeners ++ [⟨id, chatId, messageId, callback⟩] })

/-- `TelegramBot.removeReplyListener` (lines 1614-1622): `findIndex` the
first listener whose `id === replyListenerId`; on `-1` return `null` and
change nothing, otherwise `splice` it out and return it. -/
def removeReplyListener (b : Bot) (replyListenerId : Int) :
    Option ReplyListener × Bot :=
  match b.replyListeners.findIdx? (fun l => l.id == replyListenerId) with
  | none => (none, b)
  | some i =>
    (b.replyListeners[i]?,
     { b with replyListeners := b.replyListeners.eraseIdx i })

/-- The error taxonomy as far as the lifecycle guards use it:
`FatalError` (`src/errors.ts`, code `"EFATAL"`) carrying its message. -/
inductive BotErr where
  | fatal (message : String)
deriving DecidableEq, Repr

/-- Modelled from the spec: the polling engine (`src/telegramPolling.ts`,
not among the sources) as far as the lifecycle reads it — its
`isPolling()` flag. -/
structure EngineState where
  pollingFlag : Bool
deriving DecidableEq, Repr

/-- Modelled from the spec: the webhook receiver (`src/telegramWebHook.ts`,
not among the sources) as far as the lifecycle reads it — its `isOpen()`
flag. -/
structure HookState where
  openFlag : Bool
deriving DecidableEq, Repr

/-- The transport state of a bot instance: `this._polling` and
`this._webHook`, both `null` at construction. -/
structure Transport where
  polling : Option EngineState := none
  webHook : Option HookState := none
deriving DecidableEq, Repr

/-- `TelegramBot.isPolling` (lines 911-913):
`this._polling ? this._polling.isPolling() : false`. -/
def isPolling (t : Transport) : Bool :=
  match t.polling with
  | some e => e.pollingFlag
  | none => false

/-- `TelegramBot.hasOpenWebHook` (lines 948-950):
`this._webHook ? this._webHook.isOpen() : false`. -/
def hasOpenWebHook (t : Transport) : Bool :=
  match t.webHook with
  | some h => h.openFlag
  | none => false

/-- Modelled from the spec: `TelegramBotPolling.start` (in the missing
`src/telegramPolling.ts`); its deferred settles once the engine is
running, so the flag becomes true. -/
def pollingEngineStart (_e : EngineState) : EngineState :=
  { pollingFlag := true }

/-- Modelled from the spec: `TelegramBotWebHook.open` (in the missing
`src/telegramWebHook.ts`); its deferred settles once the receiver is
open, so the flag becomes true. -/
def webHookReceiverOpen (_h : HookState) : HookState :=
  { openFlag := true }

/-- `TelegramBot.startPolling` (lines 883-892): reject with `FatalError`
when a webhook is open, before touching any state; otherwise lazily create
the engine and start it. -/
def startPolling (t : Transport) : Except BotErr Unit × Transport :=
  if hasOpenWebHook t then
    (.error (.fatal "Polling and WebHook are mutually exclusive"), t)
  else
    let t' :=
      if t.polling.isNone then
        { t with polling := some { pollingFlag := false } }
      else t
    (.ok (), { t' with polling := t'.polling.map pollingEngineStart })

/-- `TelegramBot.openWebHook` (lines 921-929): reject with `FatalError`
when polling is active, before touching any state; otherwise lazily create
the receiver and open it. -/
def openWebHook (t : Transport) : Except BotErr Unit × Transport :=
  if isPolling t then
    (.error (.fatal "WebHook and Polling are mutually exclusive"), t)
  else
    let t' :=
      if t.webHook.isNone then
        { t with webHook := some { openFlag := false } }
      else t
    (.ok (), { t' with webHook := t'.webHook.map webHookReceiverOpen })

/-- An update reduced to its highest-priority populated variant field,
following the priority order the specification states: `message`,
`edited_message`, `channel_post`, `edited_channel_post`, `inline_query`,
`chosen_inline_result`, `callback_query`.  Used to express that the first
populated field alone determines the dispatcher's behaviour. -/
def firstOnly (u : Update) : Update :=
  if u.message.isSome then { update_id := u.update_id, message := u.message }
  else if u.edited_message.isSome then
    { update_id := u.update_id, edited_message := u.edited_message }
  else if u.channel_post.isSome then
    { update_id := u.update_id, channel_post := u.channel_post }
  else if u.edited_channel_post.isSome then
    { update_id := u.update_id, edited_channel_post := u.edited_channel_post }
  else if u.inline_query.isSome then
    { update_id := u.update_id, inline_query := u.inline_query }
  else if u.chosen_inline_result.isSome then
    { update_id := u.update_id,
      chosen_inline_result := u.chosen_inline_result }
  else if u.callback_query.isSome then
    { update_id := u.update_id, callback_query := u.callback_query }
  else { update_id := u.update_id }

/-- Recognises text-matcher callback invocations in a trace. -/
def isTextCb : Ev → Bool
  | .textCb _ _ _ => true
  | _ => false

/-- The text-matcher invocations the specification predicts for a text
message: matchers are tested in registration order, every successful match
invokes the callback with the match result, and a set `onlyFirstMatch`
option stops the iteration after the first success. -/
def claimedTextCbs (onlyFirst : Bool) (m : Message) (text : String) :
    List TextMatcher → Nat → List Ev
  | [], _ => []
  | reg :: rest, i =>
    match reg.regexp text with
    | none => claimedTextCbs onlyFirst m text rest (i + 1)
    | some res =>
      if onlyFirst then [Ev.textCb i m res]
      else Ev.textCb i m res :: claimedTextCbs onlyFirst m text rest (i + 1)

/-- Well-formedness of the reply-listener table, established at
construction and maintained by `onReplyToMessage` and
`removeReplyListener`: the id counter is non-negative, every stored id lies
in `(0, replyListenerId]`, and stored ids are pairwise distinct. -/
def Bot.WF (b : Bot) : Prop :=
  0 ≤ b.replyListenerId ∧
  (∀ l ∈ b.replyListeners, 0 < l.id ∧ l.id ≤ b.replyListenerId) ∧
  b.replyListeners.Pairwise fun a c => a.id ≠ c.id

/-- A regular expression matching exactly the text `"hello"` (its exec
result being the one-element array holding the input). -/
def helloRegexp : String → Option (List String) :=
  fun s => if s == "hello" then some [s] else none

/-- A subscriber callback that throws. -/
def cbThrow : Message → List String → CbRes := fun _ _ => .thrown "boom"

/-- A subscriber callback that returns normally. -/
def cbRet : Message → List String → CbRes := fun _ _ => .ret

/-- A plain text message reading `"hello"`. -/
def msgHello : Message := { text := some "hello" }

/-- A bot with two matchers for `"hello"`: the first one's callback throws,
the second one's returns. -/
def botThrowFirst : Bot :=
  { textRegexpCallbacks := [⟨helloRegexp, cbThrow⟩, ⟨helloRegexp, cbRet⟩] }

/-- A bot with two matchers for `"hello"`, both callbacks returning. -/
def botTwoMatchers : Bot :=
  { textRegexpCallbacks := [⟨helloRegexp, cbRet⟩, ⟨helloRegexp, cbRet⟩] }

/-- A bot with two matchers for `"hello"` and `onlyFirstMatch` set. -/
def botOnlyFirst : Bot :=
  { onlyFirstMatch := true,
    textRegexpCallbacks := [⟨helloRegexp, cbRet⟩, ⟨helloRegexp, cbRet⟩] }

/-- A reply-listener callback that returns normally. -/
def cbReplyRet : Message → CbRes := fun _ => .ret

/-- A bot with two reply listeners for chat 1, message 5. -/
def botTwoReplies : Bot :=
  { replyListenerId := 2,
    replyListeners :=
      [⟨1, .num 1, .num 5, cbReplyRet⟩, ⟨2, .num 1, .num 5, cbReplyRet⟩] }

/-- A message in chat 1 replying to message 5. -/
def msgReply : Message := { chat := ⟨1⟩, reply_to_message := some ⟨5⟩ }

/-- A bot with one reply listener registered with a string chat id. -/
def botStrListener : Bot :=
  { replyListenerId := 1,
    replyListeners := [⟨1, .str "1", .num 5, cbReplyRet⟩] }

/-! ### General helper lemmas -/

theorem findIdx?_none_of {α : Type} (p : α → Bool) (l : List α)
    (h : ∀ a ∈ l, p a = false) : ∀ i, l.findIdx? p i = none := by
  induction l with
  | nil => intro i; rw [List.findIdx?]
  | cons x xs ih =>
    intro i
    rw [List.findIdx?]
    simp only [h x (List.mem_cons_self _ _), Bool.false_eq_true, if_false]
    exact ih (fun a ha => h a (List.mem_cons_of_mem _ ha)) (i + 1)

theorem findIdx?_concat_of {α : Type} (p : α → Bool) (l : List α) (x : α)
    (h : ∀ a ∈ l, p a = false) (hx : p x = true) :
    ∀ i, (l ++ [x]).findIdx? p i = some (i + l.length) := by
  induction l with
  | nil =>
    intro i
    rw [List.nil_append, List.findIdx?]
    simp [hx]
  | cons y ys ih =>
    intro i
    rw [List.cons_append, List.findIdx?]
    simp only [h y (List.mem_cons_self _ _), Bool.false_eq_true, if_false]
    rw [ih (fun a ha => h a (List.mem_cons_of_mem _ ha)) (i + 1)]
    simp only [Option.some.injEq, List.length_cons]
    omega

theorem getElem?_concat {α : Type} (l : List α) (x : α) :
    (l ++ [x])[l.length]? = some x := by
  induction l with
  | nil => rfl
  | cons y ys _ => simp

theorem eraseIdx_concat {α : Type} (l : List α) (x : α) :
    (l ++ [x]).eraseIdx l.length = l := by
  induction l with
  | nil => rfl
  | cons y ys ih => simp [List.eraseIdx, ih]

/-! ### Shape lemmas about the dispatcher's trace fragments -/

theorem mem_subtypeEmits {m : Message} {ev : Ev} (h : ev ∈ subtypeEmits m) :
    ∃ ty ∈ messageTypes, (m.field ty).truthy = true ∧
      ev = Ev.emit ty (.msg m) := by
  simp only [subtypeEmits, List.mem_map, List.mem_filter] at h
  obtain ⟨ty, ⟨hty, htr⟩, rfl⟩ := h
  exact ⟨ty, hty, htr, rfl⟩

theorem mem_scanText {f : Bool} {m : Message} {text : String}
    {ms : List TextMatcher} {i : Nat} {ev : Ev}
    (h : ev ∈ (scanText f m text ms i).1) :
    ∃ j res, ev = Ev.textCb j m res := by
  induction ms generalizing i with
  | nil => simp [scanText] at h
  | cons reg rest ih =>
    cases hx : reg.regexp text with
    | none =>
      simp only [scanText, hx] at h
      exact ih h
    | some res =>
      cases hc : reg.callback m res with
      | thrown e =>
        simp only [scanText, hx, hc, List.mem_singleton] at h
        exact ⟨i, res, h⟩
      | ret =>
        simp only [scanText, hx, hc] at h
        by_cases hf : f = true
        · rw [if_pos hf, List.mem_singleton] at h
          exact ⟨i, res, h⟩
        · rw [if_neg hf, List.mem_cons] at h
          rcases h with h | h
          · exact ⟨i, res, h⟩
          · exact ih h

theorem mem_scanReplies {m : Message} {o : Int} {ls : List ReplyListener}
    {ev : Ev} (h : ev ∈ (scanReplies m o ls).1) :
    ∃ l, l ∈ ls ∧ (l.chatId.eqNum m.chat.id && l.messageId.eqNum o) = true ∧
      ev = Ev.replyCb l.id m := by
  induction ls with
  | nil => simp [scanReplies] at h
  | cons l rest ih =>
    cases hcb : l.chatId.eqNum m.chat.id && l.messageId.eqNum o with
    | false =>
      simp only [scanReplies, hcb, Bool.false_eq_true, if_false] at h
      obtain ⟨l', hl', hm', he⟩ := ih h
      exact ⟨l', List.mem_cons_of_mem _ hl', hm', he⟩
    | true =>
      cases hcall : l.callback m with
      | thrown e =>
        simp only [scanReplies, hcb, hcall, if_true, List.mem_singleton] at h
        exact ⟨l, List.mem_cons_self _ _, hcb, h⟩
      | ret =>
        simp only [scanReplies, hcb, hcall, if_true, List.mem_cons] at h
        rcases h with h | h
        · exact ⟨l, List.mem_cons_self _ _, hcb, h⟩
        · obtain ⟨l', hl', hm', he⟩ := ih h
          exact ⟨l', List.mem_cons_of_mem _ hl', hm', he⟩

/-! ### Exception-freedom lemmas -/

theorem scanText_no_throw (f : Bool) (m : Message) (text : String)
    (ms : List TextMatcher)
    (h : ∀ reg ∈ ms, ∀ res, reg.callback m res = CbRes.ret) :
    ∀ i, (scanText f m text ms i).2 = none := by
  induction ms with
  | nil => intro i; rfl
  | cons reg rest ih =>
    intro i
    have hrest : ∀ r ∈ rest, ∀ res, r.callback m res = CbRes.ret :=
      fun r hr => h r (List.mem_cons_of_mem _ hr)
    cases hx : reg.regexp text with
    | none =>
      simp only [scanText, hx]
      exact ih hrest (i + 1)
    | some res =>
      simp only [scanText, hx, h reg (List.mem_cons_self _ _) res]
      by_cases hf : f = true
      · rw [if_pos hf]
      · rw [if_neg hf]
        exact ih hrest (i + 1)

theorem scanReplies_no_throw (m : Message) (o : Int)
    (ls : List ReplyListener) (h : ∀ l ∈ ls, l.callback m = CbRes.ret) :
    (scanReplies m o ls).2 = none := by
  induction ls with
  | nil => rfl
  | cons l rest ih =>
    have hrest : ∀ l' ∈ rest, l'.callback m = CbRes.ret :=
      fun l' h' => h l' (List.mem_cons_of_mem _ h')
    cases hcb : l.chatId.eqNum m.chat.id && l.messageId.eqNum o with
    | false =>
      simp only [scanReplies, hcb, Bool.false_eq_true, if_false]
      exact ih hrest
    | true =>
      simp only [scanReplies, hcb, h l (List.mem_cons_self _ _), if_true]
      exact ih hrest

/-! ### Filter and count lemmas on trace fragments -/

theorem filter_isTextCb_emitMap (m : Message) (l : List String) :
    ((l.map fun ty => Ev.emit ty (Payload.msg m)).filter isTextCb) = [] := by
  induction l with
  | nil => rfl
  | cons a t _ => simp [isTextCb]

theorem filter_isTextCb_base (m : Message) :
    ((Ev.emit "message" (.msg m) :: subtypeEmits m).filter isTextCb) = [] := by
  rw [List.filter_cons]
  simp only [isTextCb, Bool.false_eq_true, if_false, subtypeEmits,
    filter_isTextCb_emitMap]

theorem filter_isTextCb_scanText (f : Bool) (m : Message) (text : String)
    (ms : List TextMatcher) (i : Nat) :
    ((scanText f m text ms i).1.filter isTextCb) = (scanText f m text ms i).1 := by
  rw [List.filter_eq_self]
  intro ev hev
  obtain ⟨j, res, rfl⟩ := mem_scanText hev
  rfl

theorem filter_isTextCb_scanReplies (m : Message) (o : Int)
    (ls : List ReplyListener) :
    ((scanReplies m o ls).1.filter isTextCb) = [] := by
  rw [List.filter_eq_nil_iff]
  intro ev hev
  obtain ⟨l, _, _, rfl⟩ := mem_scanReplies hev
  simp [isTextCb]

theorem count_replyCb_base (m m' : Message) (id : Int) :
    ((Ev.emit "message" (.msg m) :: subtypeEmits m).count (Ev.replyCb id m')) = 0 := by
  rw [List.count_eq_zero]
  intro h
  rcases List.mem_cons.mp h with h | h
  · exact absurd h (by simp)
  · obtain ⟨ty, _, _, he⟩ := mem_subtypeEmits h
    exact absurd he (by simp)

theorem count_replyCb_scanText (f : Bool) (m m' : Message) (text : String)
    (ms : List TextMatcher) (i : Nat) (id : Int) :
    ((scanText f m text ms i).1.count (Ev.replyCb id m')) = 0 := by
  rw [List.count_eq_zero]
  intro h
  obtain ⟨j, res, he⟩ := mem_scanText h
  exact absurd he (by simp)

theorem count_replyCb_scanReplies_zero (m : Message) (o : Int)
    (ls : List ReplyListener) (id : Int) (h : ∀ l ∈ ls, l.id ≠ id) :
    ((scanReplies m o ls).1.count (Ev.replyCb id m)) = 0 := by
  rw [List.count_eq_zero]
  intro hmem
  obtain ⟨l, hl, _, he⟩ := mem_scanReplies hmem
  simp only [Ev.replyCb.injEq, and_true] at he
  exact h l hl he.symm

theorem count_replyCb_scanReplies (m : Message) (o : Int)
    {ls : List ReplyListener}
    (hnr : ∀ l ∈ ls, l.callback m = CbRes.ret)
    (hd : ls.Pairwise fun a c => a.id ≠ c.id)
    {l : ReplyListener} (hl : l ∈ ls) :
    ((scanReplies m o ls).1.count (Ev.replyCb l.id m)) =
      if l.chatId.eqNum m.chat.id && l.messageId.eqNum o then 1 else 0 := by
  induction ls with
  | nil => cases hl
  | cons x rest ih =>
    have hx : x.callback m = CbRes.ret := hnr x (List.mem_cons_self _ _)
    have hrest : ∀ l' ∈ rest, l'.callback m = CbRes.ret :=
      fun l' h' => hnr l' (List.mem_cons_of_mem _ h')
    have hdrest := List.pairwise_cons.mp hd
    rcases List.mem_cons.mp hl with rfl | hl'
    · cases hcb : l.chatId.eqNum m.chat.id && l.messageId.eqNum o with
      | true =>
        simp only [scanReplies, hcb, hx, if_true, List.count_cons_self]
        rw [count_replyCb_scanReplies_zero m o rest l.id
          (fun l' h' => (hdrest.1 l' h').symm)]
      | false =>
        simp only [scanReplies, hcb, Bool.false_eq_true, if_false]
        exact count_replyCb_scanReplies_zero m o rest l.id
          (fun l' h' => (hdrest.1 l' h').symm)
    · cases hcb : x.chatId.eqNum m.chat.id && x.messageId.eqNum o with
      | true =>
        simp only [scanReplies, hcb, hx, if_true]
        rw [List.count_cons_of_ne, ih hrest hdrest.2 hl']
        simp only [ne_eq, Ev.replyCb.injEq, not_and]
        intro hid
        exact absurd hid.symm (hdrest.1 l hl')
      | false =>
        simp only [scanReplies, hcb, Bool.false_eq_true, if_false]
        exact ih hrest hdrest.2 hl'

/-! ### The scan matches its specification-side description -/

theorem scanText_eq_claimed (f : Bool) (m : Message) (text : String)
    (ms : List TextMatcher)
    (h : ∀ reg ∈ ms, ∀ res, reg.callback m res = CbRes.ret) :
    ∀ i, (scanText f m text ms i).1 = claimedTextCbs f m text ms i := by
  induction ms with
  | nil => intro i; rfl
  | cons reg rest ih =>
    intro i
    have hrest : ∀ r ∈ rest, ∀ res, r.callback m res = CbRes.ret :=
      fun r hr => h r (List.mem_cons_of_mem _ hr)
    cases hx : reg.regexp text with
    | none =>
      simp only [scanText, claimedTextCbs, hx]
      exact ih hrest (i + 1)
    | some res =>
      simp only [scanText, claimedTextCbs, hx,
        h reg (List.mem_cons_self _ _) res]
      by_cases hf : f = true
      · rw [if_pos hf, if_pos hf]
      · rw [if_neg hf, if_neg hf, ih hrest (i + 1)]

theorem scanText_append_skipped (f : Bool) (m : Message) (text : String)
    (pre rest : List TextMatcher) (hpre : ∀ r ∈ pre, r.regexp text = none) :
    ∀ i, scanText f m text (pre ++ rest) i = scanText f m text rest (i + pre.length) := by
  induction pre with
  | nil => intro i; rfl
  | cons r pre' ih =>
    intro i
    have hr : r.regexp text = none := hpre r (List.mem_cons_self _ _)
    have hpre' : ∀ r' ∈ pre', r'.regexp text = none :=
      fun r' h' => hpre r' (List.mem_cons_of_mem _ h')
    rw [List.cons_append]
    simp only [scanText, hr]
    rw [ih hpre' (i + 1)]
    congr 1
    simp only [List.length_cons]
    omega

/-! ### Exception-freedom of the message branch -/

theorem textScanResult_no_throw (b : Bot) (m : Message)
    (h : ∀ reg ∈ b.textRegexpCallbacks, ∀ res, reg.callback m res = CbRes.ret) :
    (textScanResult b m).2 = none := by
  unfold textScanResult
  split
  · exact scanText_no_throw _ _ _ _ h 0
  · rfl

theorem processMessage_no_throw (b : Bot) (m : Message)
    (hnt : ∀ reg ∈ b.textRegexpCallbacks, ∀ res, reg.callback m res = CbRes.ret)
    (hnr : ∀ l ∈ b.replyListeners, l.callback m = CbRes.ret) :
    (processMessage b m).2 = none := by
  simp only [processMessage, textScanResult_no_throw b m hnt]
  cases hr : m.reply_to_message with
  | none => rfl
  | some r => exact scanReplies_no_throw m r.message_id b.replyListeners hnr

theorem mem_textScanResult {b : Bot} {m : Message} {ev : Ev}
    (h : ev ∈ (textScanResult b m).1) : ∃ j res, ev = Ev.textCb j m res := by
  unfold textScanResult at h
  split at h
  · exact mem_scanText h
  · exact absurd h (by simp)

theorem replyCb_not_mem_base {m m' : Message} {id : Int}
    (h : Ev.replyCb id m' ∈ Ev.emit "message" (.msg m) :: subtypeEmits m) :
    False :=
  absurd h (List.count_eq_zero.mp (count_replyCb_base m m' id))

theorem count_replyCb_textScan (b : Bot) (m m' : Message) (id : Int) :
    ((textScanResult b m).1.count (Ev.replyCb id m')) = 0 := by
  unfold textScanResult
  split
  · exact count_replyCb_scanText _ _ _ _ _ _ _
  · rfl

theorem emit_not_mem_subtypeEmits_of_falsy (m : Message) (name : String)
    (p : Payload) (hf : (m.field name).truthy = false) :
    Ev.emit name p ∉ subtypeEmits m := by
  intro hmem
  obtain ⟨ty, _, htr, he⟩ := mem_subtypeEmits hmem
  rw [Ev.emit.injEq] at he
  rw [← he.1, hf] at htr
  exact Bool.false_ne_true htr

/-! ### Claim theorems -/

/-- C1: calling `startPolling` while `hasOpenWebHook()` is true rejects
with a `FatalError` and leaves the transport state (in particular the
webhook state) unchanged; symmetrically, calling `openWebHook` while
`isPolling()` is true rejects with a `FatalError` and leaves the transport
state (in particular the polling state) unchanged. -/
theorem claim_C1_transport_mutual_exclusion (t : Transport) :
    (hasOpenWebHook t = true →
      startPolling t =
        (.error (.fatal "Polling and WebHook are mutually exclusive"), t)) ∧
    (isPolling t = true →
      openWebHook t =
        (.error (.fatal "WebHook and Polling are mutually exclusive"), t)) := by
  constructor
  · intro h
    simp [startPolling, h]
  · intro h
    simp [openWebHook, h]

/-- Witness for C1 at concrete transports: one with an open webhook, one
with an active polling engine. -/
theorem claim_C1_transport_mutual_exclusion_witness :
    (hasOpenWebHook { webHook := some { openFlag := true } } = true ∧
      startPolling { webHook := some { openFlag := true } } =
        (.error (.fatal "Polling and WebHook are mutually exclusive"),
         { webHook := some { openFlag := true } })) ∧
    (isPolling { polling := some { pollingFlag := true } } = true ∧
      openWebHook { polling := some { pollingFlag := true } } =
        (.error (.fatal "WebHook and Polling are mutually exclusive"),
         { polling := some { pollingFlag := true } })) :=
  ⟨⟨rfl, (claim_C1_transport_mutual_exclusion _).1 rfl⟩,
   ⟨rfl, (claim_C1_transport_mutual_exclusion _).2 rfl⟩⟩

/-- C3: the variant fields are inspected in the fixed priority order
`message`, `edited_message`, `channel_post`, `edited_channel_post`,
`inline_query`, `chosen_inline_result`, `callback_query`, and the first
populated field alone determines the dispatcher's entire behaviour: an
update with several populated variant fields behaves exactly like the
update retaining only its highest-priority populated variant. -/
theorem claim_C3_first_populated_wins (b : Bot) (u : Update) :
    processUpdate b (firstOnly u) = processUpdate b u := by
  rcases u with ⟨uid, msg, em, cp, ecp, iq, cir, cbq⟩
  cases msg <;> cases em <;> cases cp <;> cases ecp <;> cases iq <;>
    cases cir <;> cases cbq <;> rfl

/-- Counterexample to C7 as stated: in the `channel_post` branch the code
emits only the category notification — for a channel post carrying text,
no `channel_post_text` notification is emitted (unlike the
`edited_message` and `edited_channel_post` branches). -/
theorem claim_C7_counterexample :
    (processUpdate {} { channel_post := some { text := some "hi" } }).1 =
      [Ev.emit "channel_post" (.msg { text := some "hi" })] ∧
    Ev.emit "channel_post_text" (.msg { text := some "hi" }) ∉
      (processUpdate {} { channel_post := some { text := some "hi" } }).1 := by
  exact ⟨rfl, by decide⟩

/-- C7 amended: the `edited_message` and `edited_channel_post` branches
emit the category notification plus a derived "..._text" notification when
the payload has a (truthy) text field and a derived "..._caption"
notification when it has a (truthy) caption field; the `channel_post`
branch emits exactly the category notification and no derived ones. -/
theorem claim_C7_derived_notifications (b : Bot) (uid : Option Int)
    (m : Message) :
    (Ev.emit "edited_message" (.msg m) ∈
      (processUpdate b { update_id := uid, edited_message := some m }).1) ∧
    ((Ev.emit "edited_message_text" (.msg m) ∈
      (processUpdate b { update_id := uid, edited_message := some m }).1) ↔
      truthyStr m.text = true) ∧
    ((Ev.emit "edited_message_caption" (.msg m) ∈
      (processUpdate b { update_id := uid, edited_message := some m }).1) ↔
      truthyStr m.caption = true) ∧
    ((processUpdate b { update_id := uid, channel_post := some m }).1 =
      [Ev.emit "channel_post" (.msg m)]) ∧
    (Ev.emit "edited_channel_post" (.msg m) ∈
      (processUpdate b { update_id := uid, edited_channel_post := some m }).1) ∧
    ((Ev.emit "edited_channel_post_text" (.msg m) ∈
      (processUpdate b { update_id := uid, edited_channel_post := some m }).1) ↔
      truthyStr m.text = true) ∧
    ((Ev.emit "edited_channel_post_caption" (.msg m) ∈
      (processUpdate b { update_id := uid, edited_channel_post := some m }).1) ↔
      truthyStr m.caption = true) := by
  cases ht : truthyStr m.text <;> cases hc : truthyStr m.caption <;>
    simp [processUpdate, ht, hc]

/-- Counterexample to C8 as stated: an update with a missing `update_id`
but a populated `message` field is dispatched normally — notifications are
emitted, not a silent no-op, because `processUpdate` never inspects
`update_id`. -/
theorem claim_C8_counterexample :
    ({ update_id := none, message := some { text := some "hi" } : Update }).update_id
        = none ∧
    (processUpdate {} { update_id := none, message := some { text := some "hi" } }).1 =
      [Ev.emit "message" (.msg { text := some "hi" }),
       Ev.emit "text" (.msg { text := some "hi" })] :=
  ⟨rfl, rfl⟩

/-- C8 amended: `processUpdate` never inspects `update_id`, so its result
is independent of that field (a missing `update_id` alone does not suppress
dispatch); an update with no populated variant field produces no
notification and no error (a silent no-op); and for any update the
dispatcher itself raises no error — an uncaught exception can only
originate in a subscriber callback. -/
theorem claim_C8_malformed_updates (b : Bot) (u : Update) (uid : Option Int)
    (hnt : ∀ reg ∈ b.textRegexpCallbacks, ∀ m res, reg.callback m res = CbRes.ret)
    (hnr : ∀ l ∈ b.replyListeners, ∀ m, l.callback m = CbRes.ret) :
    processUpdate b { u with update_id := uid } = processUpdate b u ∧
    (u.message = none → u.edited_message = none → u.channel_post = none →
      u.edited_channel_post = none → u.inline_query = none →
      u.chosen_inline_result = none → u.callback_query = none →
      processUpdate b u = ([], none)) ∧
    (processUpdate b u).2 = none := by
  refine ⟨rfl, ?_, ?_⟩
  · intro h1 h2 h3 h4 h5 h6 h7
    simp [processUpdate, h1, h2, h3, h4, h5, h6, h7]
  · cases hm : u.message with
    | some m =>
      simp only [processUpdate, hm]
      exact processMessage_no_throw b m (fun reg hr res => hnt reg hr m res)
        (fun l hl => hnr l hl m)
    | none =>
      simp only [processUpdate, hm]
      cases u.edited_message <;> cases u.channel_post <;>
        cases u.edited_channel_post <;> cases u.inline_query <;>
        cases u.chosen_inline_result <;> cases u.callback_query <;> rfl

/-- Witness for C8 amended: the empty bot and an update with only a
`callback_query` populated. -/
theorem claim_C8_malformed_updates_witness :
    (∀ reg ∈ ({} : Bot).textRegexpCallbacks, ∀ m res,
      reg.callback m res = CbRes.ret) ∧
    processUpdate {} { update_id := some 7, callback_query := some ⟨"q"⟩ } =
      processUpdate {} { callback_query := some ⟨"q"⟩ } ∧
    (processUpdate {} { callback_query := some ⟨"q"⟩ }).2 = none := by
  have h := claim_C8_malformed_updates {} { callback_query := some ⟨"q"⟩ }
    (some 7) (by intro reg hr; cases hr) (by intro l hl; cases hl)
  exact ⟨(by intro reg hr; cases hr), h.1, h.2.2⟩

/-- C9: a message whose `text` field is the empty string gets the generic
`"message"` notification, but no `"text"` subtype notification and no
text-matcher evaluation, because the JavaScript presence checks treat the
empty string as falsy. -/
theorem claim_C9_empty_text (b : Bot) (m : Message) (uid : Option Int)
    (h : m.text = some "") :
    (Ev.emit "message" (.msg m) ∈
      (processUpdate b { update_id := uid, message := some m }).1) ∧
    (∀ p, Ev.emit "text" p ∉
      (processUpdate b { update_id := uid, message := some m }).1) ∧
    ((processUpdate b { update_id := uid, message := some m }).1.filter
      isTextCb = []) := by
  have htr : truthyStr m.text = false := by rw [h]; rfl
  have hfield : (m.field "text").truthy = false := by
    simp only [Message.field, h]
    rfl
  have hts : textScanResult b m = ([], none) := by
    unfold textScanResult
    rw [htr]
    simp
  have hbase : ∀ p, Ev.emit "text" p ∉
      Ev.emit "message" (.msg m) :: subtypeEmits m := by
    intro p hmem
    rcases List.mem_cons.mp hmem with he | hmem
    · exact absurd he (by simp)
    · exact emit_not_mem_subtypeEmits_of_falsy m "text" p hfield hmem
  show (Ev.emit "message" (.msg m) ∈ (processMessage b m).1) ∧
    (∀ p, Ev.emit "text" p ∉ (processMessage b m).1) ∧
    ((processMessage b m).1.filter isTextCb = [])
  simp only [processMessage, hts]
  cases hr : m.reply_to_message with
  | none =>
    refine ⟨List.mem_append_left _ (List.mem_cons_self _ _), ?_, ?_⟩
    · intro p hmem
      rcases List.mem_append.mp hmem with hmem | hmem
      · exact hbase p hmem
      · exact absurd hmem (by simp)
    · simp [List.filter_append, filter_isTextCb_base]
  | some r =>
    refine ⟨List.mem_append_left _ (List.mem_append_left _ (List.mem_cons_self _ _)),
      ?_, ?_⟩
    · intro p hmem
      rcases List.mem_append.mp hmem with hmem | hmem
      · rcases List.mem_append.mp hmem with hmem | hmem
        · exact hbase p hmem
        · exact absurd hmem (by simp)
      · obtain ⟨l, _, _, he⟩ := mem_scanReplies hmem
        exact absurd he (by simp)
    · rw [List.filter_append, List.filter_append, filter_isTextCb_base,
        filter_isTextCb_scanReplies]
      rfl

/-- Witness for C9: the empty bot and a message whose text is `""`. -/
theorem claim_C9_empty_text_witness :
    ({ text := some "" } : Message).text = some "" ∧
    Ev.emit "message" (.msg { text := some "" }) ∈
      (processUpdate {} { message := some { text := some "" } }).1 ∧
    (processUpdate {} { message := some { text := some "" } }).1.filter
      isTextCb = [] :=
  ⟨rfl, (claim_C9_empty_text {} { text := some "" } none rfl).1,
    (claim_C9_empty_text {} { text := some "" } none rfl).2.2⟩

/-- C2: for a message carrying (truthy) text, when no registered callback
throws, the sequence of text-matcher callback invocations in the dispatch
trace is exactly the one the specification describes: matchers tested in
registration order, each match invoking its callback with the match
result, stopping after the first success exactly when `onlyFirstMatch` is
set. -/
theorem claim_C2_text_matchers_in_order (b : Bot) (m : Message)
    (uid : Option Int) (text : String)
    (htext : m.text = some text) (hne : text ≠ "")
    (hnt : ∀ reg ∈ b.textRegexpCallbacks, ∀ res,
      reg.callback m res = CbRes.ret) :
    (processUpdate b { update_id := uid, message := some m }).1.filter
        isTextCb =
      claimedTextCbs b.onlyFirstMatch m text b.textRegexpCallbacks 0 := by
  have htr : truthyStr m.text = true := by
    rw [htext]
    simp [truthyStr, hne]
  have hts : textScanResult b m =
      scanText b.onlyFirstMatch m text b.textRegexpCallbacks 0 := by
    unfold textScanResult
    rw [if_pos htr]
    rw [htext]
    rfl
  have h2 : (textScanResult b m).2 = none := by
    rw [hts]
    exact scanText_no_throw _ _ _ _ hnt 0
  show (processMessage b m).1.filter isTextCb = _
  simp only [processMessage, h2]
  cases hr : m.reply_to_message with
  | none =>
    simp only [List.filter_append, filter_isTextCb_base, List.nil_append, hts,
      filter_isTextCb_scanText]
    exact scanText_eq_claimed _ _ _ _ hnt 0
  | some r =>
    simp only [List.filter_append, filter_isTextCb_base,
      filter_isTextCb_scanReplies, List.nil_append, List.append_nil, hts,
      filter_isTextCb_scanText]
    exact scanText_eq_claimed _ _ _ _ hnt 0

/-- Witness for C2, matching the specification's own example: two matchers
both matching `"hello"`; with `onlyFirstMatch` unset both callbacks fire in
registration order, with it set only the first fires. -/
theorem claim_C2_text_matchers_in_order_witness :
    msgHello.text = some "hello" ∧
    (∀ reg ∈ botTwoMatchers.textRegexpCallbacks, ∀ res,
      reg.callback msgHello res = CbRes.ret) ∧
    (processUpdate botTwoMatchers { message := some msgHello }).1.filter
        isTextCb =
      [Ev.textCb 0 msgHello ["hello"], Ev.textCb 1 msgHello ["hello"]] ∧
    (processUpdate botOnlyFirst { message := some msgHello }).1.filter
        isTextCb =
      [Ev.textCb 0 msgHello ["hello"]] := by
  have hnt2 : ∀ reg ∈ botTwoMatchers.textRegexpCallbacks, ∀ res,
      reg.callback msgHello res = CbRes.ret := by
    intro reg hr res
    simp only [botTwoMatchers] at hr
    rcases List.mem_cons.mp hr with rfl | hr
    · rfl
    · rcases List.mem_cons.mp hr with rfl | hr
      · rfl
      · cases hr
  have hnt1 : ∀ reg ∈ botOnlyFirst.textRegexpCallbacks, ∀ res,
      reg.callback msgHello res = CbRes.ret := by
    intro reg hr res
    simp only [botOnlyFirst] at hr
    rcases List.mem_cons.mp hr with rfl | hr
    · rfl
    · rcases List.mem_cons.mp hr with rfl | hr
      · rfl
      · cases hr
  refine ⟨rfl, hnt2, ?_, ?_⟩
  · rw [claim_C2_text_matchers_in_order botTwoMatchers msgHello none "hello"
      rfl (by decide) hnt2]
    rfl
  · rw [claim_C2_text_matchers_in_order botOnlyFirst msgHello none "hello"
      rfl (by decide) hnt1]
    rfl

/-- Counterexample to C4 as stated: with two matchers both matching
`"hello"` and `onlyFirstMatch` unset, the first matcher's callback throws
and the second matcher's callback is never invoked — the exception is not
isolated, it aborts the remaining dispatch and escapes `processUpdate`. -/
theorem claim_C4_counterexample :
    (processUpdate botThrowFirst { message := some msgHello }).1 =
      [Ev.emit "message" (.msg msgHello), Ev.emit "text" (.msg msgHello),
       Ev.textCb 0 msgHello ["hello"]] ∧
    (processUpdate botThrowFirst { message := some msgHello }).2 =
      some "boom" ∧
    ∀ res, Ev.textCb 1 msgHello res ∉
      (processUpdate botThrowFirst { message := some msgHello }).1 := by
  refine ⟨rfl, rfl, ?_⟩
  intro res hmem
  rw [show (processUpdate botThrowFirst { message := some msgHello }).1 =
    [Ev.emit "message" (.msg msgHello), Ev.emit "text" (.msg msgHello),
     Ev.textCb 0 msgHello ["hello"]] from rfl] at hmem
  simp at hmem

/-- C4 corrected: an exception thrown by a subscriber callback propagates
out of `processUpdate` and aborts the dispatch — when the first matching
text matcher's callback throws, the trace ends at that invocation: no later
matcher's callback is invoked, no reply listener fires, and the exception
escapes to the caller. -/
theorem claim_C4_exception_aborts_dispatch (b : Bot) (m : Message)
    (uid : Option Int) (text : String) (pre : List TextMatcher)
    (reg : TextMatcher) (post : List TextMatcher) (res : List String)
    (e : String)
    (htext : m.text = some text) (hne : text ≠ "")
    (hsplit : b.textRegexpCallbacks = pre ++ reg :: post)
    (hpre : ∀ r ∈ pre, r.regexp text = none)
    (hmatch : reg.regexp text = some res)
    (hthrow : reg.callback m res = CbRes.thrown e) :
    processUpdate b { update_id := uid, message := some m } =
      (Ev.emit "message" (.msg m) :: subtypeEmits m ++
        [Ev.textCb pre.length m res], some e) := by
  have htr : truthyStr m.text = true := by
    rw [htext]
    simp [truthyStr, hne]
  have hts : textScanResult b m = ([Ev.textCb pre.length m res], some e) := by
    unfold textScanResult
    rw [if_pos htr]
    have hgd : m.text.getD "" = text := by rw [htext]; rfl
    rw [hgd, hsplit,
      scanText_append_skipped b.onlyFirstMatch m text pre (reg :: post) hpre 0]
    simp only [scanText, hmatch, hthrow, Nat.zero_add]
  show processMessage b m = _
  simp only [processMessage, hts]

/-- Witness for C4 corrected: the two-matcher bot whose first callback
throws; the trace stops at the throwing invocation and the exception
escapes. -/
theorem claim_C4_exception_aborts_dispatch_witness :
    msgHello.text = some "hello" ∧
    processUpdate botThrowFirst { message := some msgHello } =
      (Ev.emit "message" (.msg msgHello) :: subtypeEmits msgHello ++
        [Ev.textCb 0 msgHello ["hello"]], some "boom") :=
  ⟨rfl,
   claim_C4_exception_aborts_dispatch botThrowFirst msgHello none "hello" []
     ⟨helloRegexp, cbThrow⟩ [⟨helloRegexp, cbRet⟩] ["hello"] "boom" rfl
     (by decide) rfl (by intro r hr; cases hr) rfl rfl⟩

/-- C5: for a reply message, every listener whose `(chatId, messageId)`
strictly equals the message's `(chat.id, reply_to_message.message_id)` has
its callback invoked exactly once (in particular two listeners registered
for the same pair both fire exactly once), every other listener's callback
is not invoked, and no listener is removed from the table.  Stated for
tables with pairwise-distinct ids (the invariant `onReplyToMessage`
maintains) and non-throwing callbacks. -/
theorem claim_C5_reply_correlation (b : Bot) (m : Message) (r : ReplyRef)
    (uid : Option Int)
    (hr : m.reply_to_message = some r)
    (hnt : ∀ reg ∈ b.textRegexpCallbacks, ∀ res,
      reg.callback m res = CbRes.ret)
    (hnr : ∀ l ∈ b.replyListeners, l.callback m = CbRes.ret)
    (hids : b.replyListeners.Pairwise fun a c => a.id ≠ c.id) :
    (∀ l ∈ b.replyListeners,
      (processUpdate b { update_id := uid, message := some m }).1.count
          (Ev.replyCb l.id m) =
        if l.chatId.eqNum m.chat.id && l.messageId.eqNum r.message_id then 1
        else 0) ∧
    (processUpdateSt b { update_id := uid, message := some m }).1 = b := by
  refine ⟨?_, rfl⟩
  intro l hl
  have h2 : (textScanResult b m).2 = none := textScanResult_no_throw b m hnt
  show (processMessage b m).1.count _ = _
  simp only [processMessage, h2, hr]
  rw [List.count_append, List.count_append, count_replyCb_base,
    count_replyCb_textScan,
    count_replyCb_scanReplies m r.message_id hnr hids hl]
  simp

/-- Witness for C5, matching the specification's example: two listeners for
`(chatId 1, messageId 5)` both fire exactly once on a message in chat 1
replying to message 5, and the table is unchanged. -/
theorem claim_C5_reply_correlation_witness :
    msgReply.reply_to_message = some ⟨5⟩ ∧
    (processUpdate botTwoReplies { message := some msgReply }).1.count
        (Ev.replyCb 1 msgReply) = 1 ∧
    (processUpdate botTwoReplies { message := some msgReply }).1.count
        (Ev.replyCb 2 msgReply) = 1 ∧
    (processUpdateSt botTwoReplies { message := some msgReply }).1 =
      botTwoReplies := by
  have hnr : ∀ l ∈ botTwoReplies.replyListeners,
      l.callback msgReply = CbRes.ret := by
    intro l hl
    simp only [botTwoReplies] at hl
    rcases List.mem_cons.mp hl with rfl | hl
    · rfl
    · rcases List.mem_cons.mp hl with rfl | hl
      · rfl
      · cases hl
  have hids : botTwoReplies.replyListeners.Pairwise
      fun a c => a.id ≠ c.id := by
    constructor
    · intro a ha
      rcases List.mem_cons.mp ha with rfl | ha
      · decide
      · cases ha
    · exact List.pairwise_singleton _ _
  have h := claim_C5_reply_correlation botTwoReplies msgReply ⟨5⟩ none rfl
    (by intro reg hreg; cases hreg) hnr hids
  refine ⟨rfl, ?_, ?_, h.2⟩
  · exact h.1 ⟨1, .num 1, .num 5, cbReplyRet⟩ (List.mem_cons_self _ _)
  · exact h.1 ⟨2, .num 1, .num 5, cbReplyRet⟩
      (List.mem_cons_of_mem _ (List.mem_cons_self _ _))

/-- C10: reply correlation uses JavaScript strict equality `===`: a
listener registered with a string `chatId` or string `messageId` never
fires for a message whose `chat.id` and replied-to `message_id` are
numbers — even when the digits agree.  Stated for tables with
pairwise-distinct ids. -/
theorem claim_C10_strict_reply_equality (b : Bot) (m : Message)
    (uid : Option Int) (l : ReplyListener)
    (hl : l ∈ b.replyListeners)
    (hstr : (∃ s, l.chatId = JsId.str s) ∨ (∃ s, l.messageId = JsId.str s))
    (hids : b.replyListeners.Pairwise fun a c => a.id ≠ c.id) :
    Ev.replyCb l.id m ∉
      (processUpdate b { update_id := uid, message := some m }).1 := by
  intro hmem
  have hmem' : Ev.replyCb l.id m ∈ (processMessage b m).1 := hmem
  cases hts : (textScanResult b m).2 with
  | some e =>
    simp only [processMessage, hts] at hmem'
    rcases List.mem_append.mp hmem' with hb | ht
    · exact replyCb_not_mem_base hb
    · obtain ⟨j, res, he⟩ := mem_textScanResult ht
      exact absurd he (by simp)
  | none =>
    simp only [processMessage, hts] at hmem'
    cases hrr : m.reply_to_message with
    | none =>
      simp only [hrr] at hmem'
      rcases List.mem_append.mp hmem' with hb | ht
      · exact replyCb_not_mem_base hb
      · obtain ⟨j, res, he⟩ := mem_textScanResult ht
        exact absurd he (by simp)
    | some r =>
      simp only [hrr] at hmem'
      rcases List.mem_append.mp hmem' with hmem'' | hrep
      · rcases List.mem_append.mp hmem'' with hb | ht
        · exact replyCb_not_mem_base hb
        · obtain ⟨j, res, he⟩ := mem_textScanResult ht
          exact absurd he (by simp)
      · obtain ⟨l', hl', hcond, he⟩ := mem_scanReplies hrep
        simp only [Ev.replyCb.injEq, and_true] at he
        by_cases heq : l' = l
        · subst heq
          rcases hstr with ⟨s, hs⟩ | ⟨s, hs⟩
          · rw [hs] at hcond
            simp [JsId.eqNum] at hcond
          · rw [hs] at hcond
            simp [JsId.eqNum] at hcond
        · have hne : l ≠ l' := fun hh => heq hh.symm
          exact List.Pairwise.forall (fun a c hac => Ne.symm hac) hids hl hl'
            hne he

/-- Witness for C10: a listener registered with the string chat id `"1"`
does not fire for a reply message in the numeric chat `1`, although the
digits agree. -/
theorem claim_C10_strict_reply_equality_witness :
    (⟨1, .str "1", .num 5, cbReplyRet⟩ : ReplyListener) ∈
      botStrListener.replyListeners ∧
    msgReply.chat.id = 1 ∧
    Ev.replyCb 1 msgReply ∉
      (processUpdate botStrListener { message := some msgReply }).1 := by
  refine ⟨List.mem_cons_self _ _, rfl, ?_⟩
  exact claim_C10_strict_reply_equality botStrListener msgReply none
    ⟨1, .str "1", .num 5, cbReplyRet⟩ (List.mem_cons_self _ _)
    (Or.inl ⟨"1", rfl⟩) (List.pairwise_singleton _ _)

/-! ### The reply-listener table invariant -/

theorem wf_empty_bot : Bot.WF {} :=
  ⟨le_refl 0, (by intro l hl; cases hl), List.Pairwise.nil⟩

theorem wf_onText (b : Bot) (regexp : String → Option (List String))
    (callback : Message → List String → CbRes) (hwf : b.WF) :
    (onText b regexp callback).WF := hwf

theorem wf_onReplyToMessage (b : Bot) (chatId messageId : JsId)
    (cb : Message → CbRes) (hwf : b.WF) :
    (onReplyToMessage b chatId messageId cb).2.WF := by
  obtain ⟨h0, hmem, hpair⟩ := hwf
  refine ⟨?_, ?_, ?_⟩
  · show (0 : Int) ≤ b.replyListenerId + 1
    omega
  · show ∀ l ∈ b.replyListeners ++
        [⟨b.replyListenerId + 1, chatId, messageId, cb⟩],
      0 < l.id ∧ l.id ≤ b.replyListenerId + 1
    intro l hl
    rcases List.mem_append.mp hl with h | h
    · obtain ⟨ha, hb⟩ := hmem l h
      exact ⟨ha, by omega⟩
    · rcases List.mem_singleton.mp h with rfl
      constructor
      · show (0 : Int) < b.replyListenerId + 1
        omega
      · show b.replyListenerId + 1 ≤ b.replyListenerId + 1
        exact le_refl _
  · show List.Pairwise (fun a c => a.id ≠ c.id)
      (b.replyListeners ++ [⟨b.replyListenerId + 1, chatId, messageId, cb⟩])
    rw [List.pairwise_append]
    refine ⟨hpair, List.pairwise_singleton _ _, ?_⟩
    intro a ha a' ha'
    rcases List.mem_singleton.mp ha' with rfl
    have hb := (hmem a ha).2
    show a.id ≠ b.replyListenerId + 1
    omega

theorem wf_removeReplyListener (b : Bot) (rid : Int) (hwf : b.WF) :
    (removeReplyListener b rid).2.WF := by
  obtain ⟨h0, hmem, hpair⟩ := hwf
  unfold removeReplyListener
  cases hfi : b.replyListeners.findIdx? (fun l => l.id == rid) with
  | none => exact ⟨h0, hmem, hpair⟩
  | some i =>
    refine ⟨h0, ?_, ?_⟩
    · intro l hl
      exact hmem l (List.Sublist.subset (List.eraseIdx_sublist _ _) hl)
    · exact hpair.sublist (List.eraseIdx_sublist _ _)

theorem findIdx?_concat_zero {α : Type} (p : α → Bool) (l : List α) (x : α)
    (h : ∀ a ∈ l, p a = false) (hx : p x = true) :
    (l ++ [x]).findIdx? p = some l.length := by
  have := findIdx?_concat_of p l x h hx 0
  simpa using this

theorem removeReplyListener_found (b : Bot) (rid : Int) (i : Nat)
    (hfi : b.replyListeners.findIdx? (fun l => l.id == rid) = some i) :
    removeReplyListener b rid =
      (b.replyListeners[i]?,
       { b with replyListeners := b.replyListeners.eraseIdx i }) := by
  unfold removeReplyListener
  rw [hfi]

theorem removeReplyListener_not_found (b : Bot) (rid : Int)
    (hfi : b.replyListeners.findIdx? (fun l => l.id == rid) = none) :
    removeReplyListener b rid = (none, b) := by
  unfold removeReplyListener
  rw [hfi]

/-- C6: for the id returned by `onReplyToMessage` on a well-formed table,
the first `removeReplyListener` call returns the full removed entry and
restores the table to its previous contents; an immediately repeated call
with the same id returns `null` and changes nothing; and a call with an id
that was never issued (outside `(0, replyListenerId]`) returns `null` and
changes nothing. -/
theorem claim_C6_remove_reply_listener (b : Bot) (chatId messageId : JsId)
    (cb : Message → CbRes) (hwf : b.WF) :
    removeReplyListener (onReplyToMessage b chatId messageId cb).2
        (onReplyToMessage b chatId messageId cb).1 =
      (some ⟨b.replyListenerId + 1, chatId, messageId, cb⟩,
       { b with replyListenerId := b.replyListenerId + 1 }) ∧
    removeReplyListener
        (removeReplyListener (onReplyToMessage b chatId messageId cb).2
            (onReplyToMessage b chatId messageId cb).1).2
        (onReplyToMessage b chatId messageId cb).1 =
      (none,
       (removeReplyListener (onReplyToMessage b chatId messageId cb).2
           (onReplyToMessage b chatId messageId cb).1).2) ∧
    (∀ rid : Int, ¬(0 < rid ∧ rid ≤ b.replyListenerId) →
      removeReplyListener b rid = (none, b)) := by
  obtain ⟨h0, hmem, hpair⟩ := hwf
  have hfresh : ∀ l ∈ b.replyListeners,
      (fun l : ReplyListener => l.id == b.replyListenerId + 1) l = false := by
    intro l hl
    have := (hmem l hl).2
    simp only [beq_eq_false_iff_ne, ne_eq]
    omega
  have hfind : ((onReplyToMessage b chatId messageId cb).2).replyListeners.findIdx?
      (fun l => l.id == (onReplyToMessage b chatId messageId cb).1) =
      some b.replyListeners.length := by
    show (b.replyListeners ++
        [(⟨b.replyListenerId + 1, chatId, messageId, cb⟩ : ReplyListener)]).findIdx?
      (fun l => l.id == b.replyListenerId + 1) = some b.replyListeners.length
    exact findIdx?_concat_zero _ _ _ hfresh (by simp)
  have hget : ((onReplyToMessage b chatId messageId cb).2).replyListeners[b.replyListeners.length]? =
      some ⟨b.replyListenerId + 1, chatId, messageId, cb⟩ := by
    show (b.replyListeners ++
      [(⟨b.replyListenerId + 1, chatId, messageId, cb⟩ : ReplyListener)])[b.replyListeners.length]? = _
    exact getElem?_concat _ _
  have herase : ((onReplyToMessage b chatId messageId cb).2).replyListeners.eraseIdx
      b.replyListeners.length = b.replyListeners := by
    show (b.replyListeners ++
      [(⟨b.replyListenerId + 1, chatId, messageId, cb⟩ : ReplyListener)]).eraseIdx
      b.replyListeners.length = b.replyListeners
    exact eraseIdx_concat _ _
  have h1 : removeReplyListener (onReplyToMessage b chatId messageId cb).2
      (onReplyToMessage b chatId messageId cb).1 =
      (some ⟨b.replyListenerId + 1, chatId, messageId, cb⟩,
       { b with replyListenerId := b.replyListenerId + 1 }) := by
    rw [removeReplyListener_found _ _ _ hfind, hget, herase]
    rfl
  have h2 : removeReplyListener
      { b with replyListenerId := b.replyListenerId + 1 }
      (b.replyListenerId + 1) =
      (none, { b with replyListenerId := b.replyListenerId + 1 }) := by
    apply removeReplyListener_not_found
    show b.replyListeners.findIdx? (fun l => l.id == b.replyListenerId + 1) = none
    exact findIdx?_none_of _ _ hfresh 0
  refine ⟨h1, ?_, ?_⟩
  · rw [h1]
    exact h2
  · intro rid hrid
    have hall : ∀ l ∈ b.replyListeners,
        (fun l : ReplyListener => l.id == rid) l = false := by
      intro l hl
      obtain ⟨ha, hb⟩ := hmem l hl
      simp only [beq_eq_false_iff_ne, ne_eq]
      intro hc
      exact hrid ⟨by omega, by omega⟩
    exact removeReplyListener_not_found _ _ (findIdx?_none_of _ _ hall 0)

/-- Witness for C6: registering one listener on a fresh bot and removing it
by the returned id yields the entry and empties the table. -/
theorem claim_C6_remove_reply_listener_witness :
    Bot.WF {} ∧
    removeReplyListener (onReplyToMessage {} (.num 1) (.num 5) cbReplyRet).2
        (onReplyToMessage {} (.num 1) (.num 5) cbReplyRet).1 =
      (some ⟨1, .num 1, .num 5, cbReplyRet⟩, { replyListenerId := 1 }) :=
  ⟨wf_empty_bot,
   (claim_C6_remove_reply_listener {} (.num 1) (.num 5) cbReplyRet
     wf_empty_bot).1⟩

end TelegramBotApi
